import Mathlib

/-!
Verification of the db2snow (pgtosnowflake) schema-migration tool against its
design specification.  The development shallowly embeds the parts of the
program that the verified properties are about:

* the credential encryption service (AES-256-GCM authenticated encryption of
  short secret strings), modelled symbolically at the level of the design
  contract since the service implementation file is not part of the sources
  at hand;
* the per-engine type mapper and the Snowflake DDL synthesizer, likewise
  modelled from the design contract and the mapping tables documented in the
  README;
* the configuration service (config-path resolution and key-file reading,
  from config.service.ts) and the S3 key builder (from aws.service.ts),
  translated directly from the source.

TypeScript strings are embedded as Lean String where only equality matters
and as List Char where character-level reasoning (trimming, slicing) is
needed.
-/

namespace Db2Snow

/-! ## Constants (src/src/constants.ts) -/

def APP_NAME : String := "pgtosnowflake"

def CONFIG_DIR_NAME : String := ".pgtosnowflake"

def MAPPINGS_DIR_NAME : String := "mappings"

def LOGS_DIR_NAME : String := "logs"

def KEY_FILE_NAME : String := "key"

def CONNECTIONS_DIR_NAME : String := "connections"

def ENCRYPTION_ALGORITHM : String := "aes-256-gcm"

def SCRYPT_KEY_LENGTH : Nat := 32

def AWS_CREDENTIALS_FILE_NAME : String := "aws.json"

def MAPPING_FILE_VERSION : Nat := 1

/-! ## Encryption service

Modelled from the spec: `services/encryption.service.ts` is not among the
source files at hand (only its callers and the constants it uses are), so
the authenticated-encryption scheme is embedded symbolically, following the
contract of spec section 4.3: AES-256-GCM with a 256-bit key, a per-call
random initialization vector, and an integrity tag computed over the
ciphertext under the key.  Ciphertexts and tags are symbolic terms; the tag
binds the key, the initialization vector and the ciphertext, which is the
standard idealization of a GCM authentication tag.  Randomness is made
explicit: the initialization vector drawn by a call is a parameter.
-/

/-- Keys are byte lists; a valid key is 256 bits, that is 32 bytes. -/
abbrev EncKey : Type := List Nat

/-- Checks that a key is a valid 256-bit (32-byte) key. -/
def validKey (k : EncKey) : Prop :=
  k.length = SCRYPT_KEY_LENGTH ∧ ∀ b ∈ k, b < 256

instance (k : EncKey) : Decidable (validKey k) := by
  unfold validKey SCRYPT_KEY_LENGTH
  infer_instance

/-- Modelled from the spec: a symbolic AES-256-GCM ciphertext, determined by
the key, the initialization vector and the plaintext. -/
inductive GcmCiphertext : Type where
  | mk (key : EncKey) (iv : List Nat) (plaintext : String)
deriving DecidableEq

/-- Modelled from the spec: a symbolic GCM authentication tag, computed over
the ciphertext under the key and initialization vector. -/
inductive GcmTag : Type where
  | mk (key : EncKey) (iv : List Nat) (ct : GcmCiphertext)
deriving DecidableEq

/-- Embeds the `EncryptedPayload` interface of src/src/types/config.ts:
algorithm tag, initialization vector, authentication tag, ciphertext. -/
structure EncryptedPayload : Type where
  encrypted : Bool
  algorithm : String
  iv : List Nat
  tag : GcmTag
  ciphertext : GcmCiphertext
deriving DecidableEq

/-- Errors of the encryption and configuration services
(src/utils/error.ts). -/
inductive ServiceError : Type where
  | authenticationError
  | configNotFound
deriving DecidableEq

/-- Modelled from the spec: symbolic GCM decryption of a raw ciphertext.
With the matching key and initialization vector it recovers the plaintext;
with any other it yields an unrelated byte string (same length, zero
bytes), never the plaintext of a nonempty message. -/
def gcmRawDecrypt (ct : GcmCiphertext) (key : EncKey) (iv : List Nat) : String :=
  match ct with
  | GcmCiphertext.mk k0 iv0 p =>
      if k0 = key ∧ iv0 = iv then p
      else String.mk (p.data.map (fun _ => Char.ofNat 0))

/-- Modelled from the spec: `encrypt(plaintext, key)` of
encryption.service.ts.  The initialization vector freshly drawn from the
random source by the call is passed explicitly. -/
def encrypt (plaintext : String) (key : EncKey) (iv : List Nat) : EncryptedPayload :=
  let ct := GcmCiphertext.mk key iv plaintext
  { encrypted := true
    algorithm := ENCRYPTION_ALGORITHM
    iv := iv
    tag := GcmTag.mk key iv ct
    ciphertext := ct }

/-- Modelled from the spec: `decrypt(payload, key)` of
encryption.service.ts.  The authentication tag is recomputed over the
payload ciphertext under the supplied key; on mismatch decryption fails
with an AuthenticationError, otherwise the ciphertext is decrypted. -/
def decrypt (payload : EncryptedPayload) (key : EncKey) :
    Except ServiceError String :=
  if payload.tag = GcmTag.mk key payload.iv payload.ciphertext then
    Except.ok (gcmRawDecrypt payload.ciphertext key payload.iv)
  else
    Except.error ServiceError.authenticationError

/-- Modelled from the spec: the sequence of initialization vectors drawn
from the cryptographic random source, one per encryption call; call number
`n` uses `tape n`.  An ideal random source never repeats an initialization
vector, which is expressed as injectivity of the tape. -/
def encryptCall (tape : Nat → List Nat) (n : Nat) (plaintext : String)
    (key : EncKey) : EncryptedPayload :=
  encrypt plaintext key (tape n)

/-! ## Theorems: encryption service -/

/-- C1: for every plaintext string p and every valid 256-bit key k,
decrypting the result of encrypting p under k (with whatever fresh
initialization vector the call drew) returns exactly p. -/
theorem decrypt_encrypt_roundtrip (p : String) (k : EncKey) (iv : List Nat)
    (hk : validKey k) :
    decrypt (encrypt p k iv) k = Except.ok p := by
  simp [decrypt, encrypt, gcmRawDecrypt]

/-- Witness for C1 at a concrete plaintext and key. -/
theorem decrypt_encrypt_roundtrip_witness :
    decrypt (encrypt "hunter2" (List.replicate 32 7) [1, 2, 3])
        (List.replicate 32 7) = Except.ok "hunter2" :=
  decrypt_encrypt_roundtrip "hunter2" (List.replicate 32 7) [1, 2, 3] (by decide)

/-- C2: decrypting under a key different from the one used to encrypt fails
with an AuthenticationError, and in general decryption never returns a
plaintext when the recomputed integrity tag does not match the stored one
(wrong key or corrupted payload). -/
theorem decrypt_wrong_key_fails (p : String) (k1 k2 : EncKey) (iv : List Nat)
    (hk1 : validKey k1) (hk2 : validKey k2) (hne : k1 ≠ k2) :
    decrypt (encrypt p k1 iv) k2 = Except.error ServiceError.authenticationError
      ∧ ∀ (payload : EncryptedPayload) (k : EncKey),
          payload.tag ≠ GcmTag.mk k payload.iv payload.ciphertext →
          decrypt payload k = Except.error ServiceError.authenticationError := by
  constructor
  · simp [decrypt, encrypt]
    intro h
    exact absurd h hne
  · intro payload k htag
    simp [decrypt, htag]

/-- Witness for C2 at a concrete plaintext and two concrete distinct keys. -/
theorem decrypt_wrong_key_fails_witness :
    decrypt (encrypt "secret" (List.replicate 32 1) [9]) (List.replicate 32 2)
      = Except.error ServiceError.authenticationError :=
  (decrypt_wrong_key_fails "secret" (List.replicate 32 1) (List.replicate 32 2) [9]
      (by decide) (by decide) (by decide)).1

/-- C6: two distinct encryption calls draw distinct fresh initialization
vectors from an ideal (never-repeating) random source, so they never
produce identical ciphertext/iv pairs — an initialization vector is never
reused under the same key. -/
theorem encrypt_fresh_iv_no_reuse (tape : Nat → List Nat)
    (hinj : Function.Injective tape) (i j : Nat) (p1 p2 : String)
    (k : EncKey) (hij : i ≠ j) :
    (encryptCall tape i p1 k).iv ≠ (encryptCall tape j p2 k).iv
      ∧ ((encryptCall tape i p1 k).ciphertext, (encryptCall tape i p1 k).iv)
          ≠ ((encryptCall tape j p2 k).ciphertext, (encryptCall tape j p2 k).iv) := by
  have hiv : tape i ≠ tape j := fun h => hij (hinj h)
  refine ⟨?_, ?_⟩
  · simpa [encryptCall, encrypt] using hiv
  · intro h
    have := congrArg Prod.snd h
    simp only [encryptCall, encrypt] at this
    exact hiv this

/-- Witness for C6: an injective tape (call n draws the one-byte vector
consisting of n) and the first two calls. -/
theorem encrypt_fresh_iv_no_reuse_witness :
    (encryptCall (fun n => [n]) 0 "pw" (List.replicate 32 0)).iv
      ≠ (encryptCall (fun n => [n]) 1 "pw" (List.replicate 32 0)).iv :=
  (encrypt_fresh_iv_no_reuse (fun n => [n])
      (fun a b h => by simpa using h)
      0 1 "pw" "pw" (List.replicate 32 0) (by decide)).1

/-! ## Canonical schema model (spec section 3, src/types) -/

/-- Source engines supported by the tool (types/source-engine.ts). -/
inductive SourceEngine : Type where
  | postgres
  | mysql
  | mssql
deriving DecidableEq

/-- Column Descriptor of the Canonical Schema Model: name, native type
name, optional precision/scale, optional length, nullable flag, optional
default expression, ordinal position. -/
structure ColumnDescriptor : Type where
  name : String
  nativeType : String
  precision : Option Nat
  scale : Option Nat
  maxLength : Option Nat
  nullable : Bool
  defaultValue : Option String
  ordinal : Nat
deriving DecidableEq

/-- Canonical target-warehouse type, the tagged variant of spec
section 3. -/
inductive CanonicalType : Type where
  | smallint
  | integer
  | bigint
  | number (precision scale : Option Nat)
  | float
  | double
  | varchar (length : Option Nat)
  | char (length : Option Nat)
  | boolean
  | date
  | timestampNtz
  | timestampTz
  | variant
  | binary
  | array (base : CanonicalType)
  | unmapped (originalType : String)
deriving DecidableEq

/-! ## Type mapper

Modelled from the spec: the engine type-mapper modules
(type-mapper.service.ts, mysql-type-mapper.ts, mssql-type-mapper.ts) are
not among the source files at hand.  Following spec section 4.1 the
per-engine mapping tables are data: an association list from native type
name to a mapping rule, where parametric rules copy the declared
precision/scale/length from the column descriptor.  The table contents
follow the README type-mapping tables.
-/

/-- A mapping rule in an engine mapping table: either a fixed canonical
type (possibly with a warning comment), or a parametric rule that reads
precision/scale/length from the column descriptor, or an array rule that
records the original element type in a warning. -/
inductive TypeRule : Type where
  | plain (t : CanonicalType)
  | plainW (t : CanonicalType) (warning : String)
  | numberPS
  | varcharLen
  | charLen
  | arrayOf (base : CanonicalType) (elemName : String)
deriving DecidableEq

/-- Applies a mapping rule to a column descriptor, yielding the canonical
type and an optional warning comment. -/
def applyRule (rule : TypeRule) (col : ColumnDescriptor) :
    CanonicalType × Option String :=
  match rule with
  | TypeRule.plain t => (t, none)
  | TypeRule.plainW t w => (t, some w)
  | TypeRule.numberPS => (CanonicalType.number col.precision col.scale, none)
  | TypeRule.varcharLen => (CanonicalType.varchar col.maxLength, none)
  | TypeRule.charLen => (CanonicalType.char col.maxLength, none)
  | TypeRule.arrayOf base elemName =>
      (CanonicalType.array base, some ("Array of " ++ elemName))

/-- PostgreSQL mapping table (README section Type Mapping). -/
def postgresTable : List (String × TypeRule) :=
  [("int2", TypeRule.plain CanonicalType.smallint),
   ("smallint", TypeRule.plain CanonicalType.smallint),
   ("smallserial", TypeRule.plain CanonicalType.smallint),
   ("int4", TypeRule.plain CanonicalType.integer),
   ("integer", TypeRule.plain CanonicalType.integer),
   ("int", TypeRule.plain CanonicalType.integer),
   ("serial", TypeRule.plain CanonicalType.integer),
   ("int8", TypeRule.plain CanonicalType.bigint),
   ("bigint", TypeRule.plain CanonicalType.bigint),
   ("bigserial", TypeRule.plain CanonicalType.bigint),
   ("numeric", TypeRule.numberPS),
   ("decimal", TypeRule.numberPS),
   ("float4", TypeRule.plain CanonicalType.float),
   ("real", TypeRule.plain CanonicalType.float),
   ("float8", TypeRule.plain CanonicalType.double),
   ("double precision", TypeRule.plain CanonicalType.double),
   ("varchar", TypeRule.varcharLen),
   ("character varying", TypeRule.varcharLen),
   ("text", TypeRule.plain (CanonicalType.varchar none)),
   ("char", TypeRule.charLen),
   ("character", TypeRule.charLen),
   ("bpchar", TypeRule.charLen),
   ("boolean", TypeRule.plain CanonicalType.boolean),
   ("bool", TypeRule.plain CanonicalType.boolean),
   ("date", TypeRule.plain CanonicalType.date),
   ("timestamp", TypeRule.plain CanonicalType.timestampNtz),
   ("timestamp without time zone", TypeRule.plain CanonicalType.timestampNtz),
   ("timestamptz", TypeRule.plain CanonicalType.timestampTz),
   ("timestamp with time zone", TypeRule.plain CanonicalType.timestampTz),
   ("json", TypeRule.plain CanonicalType.variant),
   ("jsonb", TypeRule.plain CanonicalType.variant),
   ("bytea", TypeRule.plain CanonicalType.binary),
   ("uuid", TypeRule.plain (CanonicalType.varchar (some 36))),
   ("interval", TypeRule.plainW (CanonicalType.varchar none)
      "No Snowflake equivalent for interval"),
   ("inet", TypeRule.plain (CanonicalType.varchar (some 45))),
   ("cidr", TypeRule.plain (CanonicalType.varchar (some 49))),
   ("_int4", TypeRule.arrayOf CanonicalType.integer "int4"),
   ("_int8", TypeRule.arrayOf CanonicalType.bigint "int8"),
   ("_text", TypeRule.arrayOf (CanonicalType.varchar none) "text")]

/-- MySQL mapping table (README section Type Mapping). -/
def mysqlTable : List (String × TypeRule) :=
  [("int", TypeRule.plain CanonicalType.integer),
   ("integer", TypeRule.plain CanonicalType.integer),
   ("smallint", TypeRule.plain CanonicalType.smallint),
   ("tinyint", TypeRule.plain CanonicalType.smallint),
   ("bigint", TypeRule.plain CanonicalType.bigint),
   ("decimal", TypeRule.numberPS),
   ("numeric", TypeRule.numberPS),
   ("float", TypeRule.plain CanonicalType.float),
   ("double", TypeRule.plain CanonicalType.double),
   ("varchar", TypeRule.varcharLen),
   ("char", TypeRule.charLen),
   ("text", TypeRule.plain (CanonicalType.varchar none)),
   ("tinytext", TypeRule.plain (CanonicalType.varchar none)),
   ("mediumtext", TypeRule.plain (CanonicalType.varchar none)),
   ("longtext", TypeRule.plain (CanonicalType.varchar none)),
   ("boolean", TypeRule.plain CanonicalType.boolean),
   ("bool", TypeRule.plain CanonicalType.boolean),
   ("date", TypeRule.plain CanonicalType.date),
   ("datetime", TypeRule.plain CanonicalType.timestampNtz),
   ("timestamp", TypeRule.plain CanonicalType.timestampTz),
   ("json", TypeRule.plain CanonicalType.variant),
   ("blob", TypeRule.plain CanonicalType.binary),
   ("longblob", TypeRule.plain CanonicalType.binary),
   ("binary", TypeRule.plain CanonicalType.binary),
   ("varbinary", TypeRule.plain CanonicalType.binary),
   ("enum", TypeRule.plainW (CanonicalType.varchar none)
      "Enum converted to VARCHAR"),
   ("set", TypeRule.plainW (CanonicalType.varchar none)
      "Set converted to VARCHAR")]

/-- SQL Server mapping table (README section Type Mapping). -/
def mssqlTable : List (String × TypeRule) :=
  [("int", TypeRule.plain CanonicalType.integer),
   ("bigint", TypeRule.plain CanonicalType.bigint),
   ("smallint", TypeRule.plain CanonicalType.smallint),
   ("tinyint", TypeRule.plain CanonicalType.smallint),
   ("decimal", TypeRule.numberPS),
   ("numeric", TypeRule.numberPS),
   ("float", TypeRule.plain CanonicalType.float),
   ("real", TypeRule.plain CanonicalType.float),
   ("money", TypeRule.plain (CanonicalType.number (some 19) (some 4))),
   ("nvarchar", TypeRule.varcharLen),
   ("varchar", TypeRule.varcharLen),
   ("nchar", TypeRule.charLen),
   ("char", TypeRule.charLen),
   ("ntext", TypeRule.plain (CanonicalType.varchar none)),
   ("text", TypeRule.plain (CanonicalType.varchar none)),
   ("xml", TypeRule.plain (CanonicalType.varchar none)),
   ("bit", TypeRule.plain CanonicalType.boolean),
   ("date", TypeRule.plain CanonicalType.date),
   ("datetime", TypeRule.plain CanonicalType.timestampNtz),
   ("datetime2", TypeRule.plain CanonicalType.timestampNtz),
   ("smalldatetime", TypeRule.plain CanonicalType.timestampNtz),
   ("datetimeoffset", TypeRule.plain CanonicalType.timestampTz),
   ("uniqueidentifier", TypeRule.plain (CanonicalType.varchar (some 36))),
   ("sql_variant", TypeRule.plain CanonicalType.variant),
   ("binary", TypeRule.plain CanonicalType.binary),
   ("varbinary", TypeRule.plain CanonicalType.binary),
   ("image", TypeRule.plain CanonicalType.binary)]

/-- Mapping table of a source engine. -/
def mappingTable (engine : SourceEngine) : List (String × TypeRule) :=
  match engine with
  | SourceEngine.postgres => postgresTable
  | SourceEngine.mysql => mysqlTable
  | SourceEngine.mssql => mssqlTable

/-- Modelled from the spec: `mapType(engine, columnDescriptor)` of the
engine type-mapper modules.  The native type name is looked up in the
engine mapping table; a hit applies the matched rule, a miss falls back to
UNMAPPED carrying the original native type name verbatim together with a
warning comment.  The function is total: it returns for every input. -/
def mapType (engine : SourceEngine) (col : ColumnDescriptor) :
    CanonicalType × Option String :=
  match (mappingTable engine).lookup col.nativeType with
  | some rule => applyRule rule col
  | none =>
      (CanonicalType.unmapped col.nativeType,
       some ("Unmapped type: " ++ col.nativeType ++ " converted to VARCHAR"))

/-- Modelled from the spec: the identity flag is derived from the native
type (auto-incrementing integer variant), independently of the base
mapping.  Only PostgreSQL has type-level serial variants. -/
def isIdentityColumn (engine : SourceEngine) (col : ColumnDescriptor) : Bool :=
  match engine with
  | SourceEngine.postgres =>
      col.nativeType = "serial" || col.nativeType = "bigserial"
        || col.nativeType = "smallserial"
  | SourceEngine.mysql => false
  | SourceEngine.mssql => false

/-! ## Theorems: type mapper -/

/-- C4: for every engine and every column whose native type is absent from
that engine mapping table, mapType returns the UNMAPPED canonical type
carrying the original native type name verbatim together with a warning
comment; being a total function of its arguments it never fails. -/
theorem mapType_unmapped_fallback (engine : SourceEngine)
    (col : ColumnDescriptor)
    (habsent : (mappingTable engine).lookup col.nativeType = none) :
    (mapType engine col).1 = CanonicalType.unmapped col.nativeType
      ∧ (mapType engine col).2
          = some ("Unmapped type: " ++ col.nativeType ++ " converted to VARCHAR") := by
  simp [mapType, habsent]

/-- Witness for C4: a PostgreSQL enum type absent from the table. -/
theorem mapType_unmapped_fallback_witness :
    (mappingTable SourceEngine.postgres).lookup "mood_enum" = none
      ∧ (mapType SourceEngine.postgres
          { name := "mood", nativeType := "mood_enum", precision := none,
            scale := none, maxLength := none, nullable := true,
            defaultValue := none, ordinal := 1 }).1
        = CanonicalType.unmapped "mood_enum" :=
  ⟨by decide,
   (mapType_unmapped_fallback SourceEngine.postgres
      { name := "mood", nativeType := "mood_enum", precision := none,
        scale := none, maxLength := none, nullable := true,
        defaultValue := none, ordinal := 1 }
      (by decide)).1⟩

/-- C5: for every engine and every native type present in that engine
mapping table under a parametric rule, mapType preserves the declared
precision, scale and length exactly: a numeric rule yields
NUMBER(precision, scale) with the column declared precision and scale, the
length-bounded text rules yield VARCHAR(length) and CHAR(length) with the
column declared length, and an unbounded-text table entry yields unbounded
VARCHAR. -/
theorem mapType_preserves_precision (engine : SourceEngine)
    (col : ColumnDescriptor) :
    ((mappingTable engine).lookup col.nativeType = some TypeRule.numberPS →
        (mapType engine col).1 = CanonicalType.number col.precision col.scale)
      ∧ ((mappingTable engine).lookup col.nativeType = some TypeRule.varcharLen →
          (mapType engine col).1 = CanonicalType.varchar col.maxLength)
      ∧ ((mappingTable engine).lookup col.nativeType = some TypeRule.charLen →
          (mapType engine col).1 = CanonicalType.char col.maxLength)
      ∧ ((mappingTable engine).lookup col.nativeType
            = some (TypeRule.plain (CanonicalType.varchar none)) →
          (mapType engine col).1 = CanonicalType.varchar none) := by
  refine ⟨?_, ?_, ?_, ?_⟩ <;> intro h <;> simp [mapType, h, applyRule]

/-- Witness for C5: a PostgreSQL numeric(10,2) column maps to
NUMBER(10,2), a varchar(255) column to VARCHAR(255), and a bare text
column to unbounded VARCHAR. -/
theorem mapType_preserves_precision_witness :
    (mapType SourceEngine.postgres
        { name := "amount", nativeType := "numeric", precision := some 10,
          scale := some 2, maxLength := none, nullable := true,
          defaultValue := none, ordinal := 1 }).1
      = CanonicalType.number (some 10) (some 2)
    ∧ (mapType SourceEngine.postgres
        { name := "title", nativeType := "varchar", precision := none,
          scale := none, maxLength := some 255, nullable := true,
          defaultValue := none, ordinal := 2 }).1
      = CanonicalType.varchar (some 255)
    ∧ (mapType SourceEngine.postgres
        { name := "body", nativeType := "text", precision := none,
          scale := none, maxLength := none, nullable := true,
          defaultValue := none, ordinal := 3 }).1
      = CanonicalType.varchar none :=
  ⟨(mapType_preserves_precision SourceEngine.postgres
      { name := "amount", nativeType := "numeric", precision := some 10,
        scale := some 2, maxLength := none, nullable := true,
        defaultValue := none, ordinal := 1 }).1 (by decide),
   (mapType_preserves_precision SourceEngine.postgres
      { name := "title", nativeType := "varchar", precision := none,
        scale := none, maxLength := some 255, nullable := true,
        defaultValue := none, ordinal := 2 }).2.1 (by decide),
   (mapType_preserves_precision SourceEngine.postgres
      { name := "body", nativeType := "text", precision := none,
        scale := none, maxLength := none, nullable := true,
        defaultValue := none, ordinal := 3 }).2.2.2 (by decide)⟩

/-! ## Mapping artifact (spec sections 3 and 6, src/types/mapping.ts) -/

/-- Primary Key: ordered, non-empty sequence of column names. -/
structure PrimaryKeyDescriptor : Type where
  columns : List String
deriving DecidableEq

/-- Foreign Key: local columns, referenced schema and table, referenced
columns. -/
structure ForeignKeyDescriptor : Type where
  columns : List String
  referencedSchema : String
  referencedTable : String
  referencedColumns : List String
deriving DecidableEq

/-- Table Descriptor: schema name, table name, ordered columns, optional
primary key, foreign keys. -/
structure TableDescriptor : Type where
  schemaName : String
  tableName : String
  columns : List ColumnDescriptor
  primaryKey : Option PrimaryKeyDescriptor
  foreignKeys : List ForeignKeyDescriptor
deriving DecidableEq

/-- Connection descriptor of the Mapping Artifact; the password is an
Encrypted Payload. -/
structure ConnectionDescriptor : Type where
  host : String
  port : Nat
  database : String
  user : String
  password : EncryptedPayload
  ssl : Bool
deriving DecidableEq

/-- Mapping Artifact: format version, name, creation timestamp, connection
descriptor, selected schemas, ordered table descriptors, export
preferences. -/
structure MappingArtifact : Type where
  version : Nat
  name : String
  createdAt : String
  connection : ConnectionDescriptor
  selectedSchemas : List String
  tables : List TableDescriptor
  exportFormat : String
  outputDir : String
deriving DecidableEq

/-! ## DDL synthesizer

Modelled from the spec: ddl-generator.service.ts is not among the source
files at hand.  Following spec section 4.2 the synthesizer emits, in
order: a fixed header comment; one CREATE SCHEMA IF NOT EXISTS per
distinct selected schema in first-appearance order; one CREATE TABLE IF
NOT EXISTS per table in the stable artifact order; and only after every
CREATE TABLE, one ALTER TABLE ... ADD CONSTRAINT ... FOREIGN KEY per
foreign key in table-then-declaration order.  Statements are an inductive
type so that the statement kinds are distinguishable; each carries its
full rendered-content ingredients.  The type mapper variant used for
column rendering is the PostgreSQL one (the engine of the original tool);
the ordering properties are independent of that choice.
-/

/-- A synthesized DDL statement. -/
inductive DdlStmt : Type where
  | header (text : String)
  | createSchema (schema : String)
  | createTable (schema table : String) (body : String)
  | alterTableAddFk (schema table constraintName : String)
      (columns : List String) (refSchema refTable : String)
      (refColumns : List String)
deriving DecidableEq

/-- Fixed header comment: the synthesized constraints are declarative and
not enforced by Snowflake. -/
def ddlHeaderComment : String :=
  "-- Generated Snowflake DDL. Primary and foreign key constraints are declarative only and are not enforced by Snowflake."

/-- Removes duplicates keeping the first appearance of each schema name,
preserving the operator selection order. -/
def dedupFirst (seen : List String) : List String → List String
  | [] => []
  | s :: rest =>
      if s ∈ seen then dedupFirst seen rest
      else s :: dedupFirst (s :: seen) rest

/-- Renders a canonical type as Snowflake DDL text. -/
def renderCanonicalType : CanonicalType → String
  | CanonicalType.smallint => "SMALLINT"
  | CanonicalType.integer => "INTEGER"
  | CanonicalType.bigint => "BIGINT"
  | CanonicalType.number (some p) (some s) =>
      "NUMBER(" ++ toString p ++ "," ++ toString s ++ ")"
  | CanonicalType.number (some p) none => "NUMBER(" ++ toString p ++ ")"
  | CanonicalType.number none _ => "NUMBER"
  | CanonicalType.float => "FLOAT"
  | CanonicalType.double => "DOUBLE"
  | CanonicalType.varchar (some n) => "VARCHAR(" ++ toString n ++ ")"
  | CanonicalType.varchar none => "VARCHAR"
  | CanonicalType.char (some n) => "CHAR(" ++ toString n ++ ")"
  | CanonicalType.char none => "CHAR"
  | CanonicalType.boolean => "BOOLEAN"
  | CanonicalType.date => "DATE"
  | CanonicalType.timestampNtz => "TIMESTAMP_NTZ"
  | CanonicalType.timestampTz => "TIMESTAMP_TZ"
  | CanonicalType.variant => "VARIANT"
  | CanonicalType.binary => "BINARY"
  | CanonicalType.array _ => "ARRAY"
  | CanonicalType.unmapped _ => "VARCHAR"

/-- Joins rendered pieces with a separator. -/
def joinSep (sep : String) : List String → String
  | [] => ""
  | [x] => x
  | x :: rest => x ++ sep ++ joinSep sep rest

/-- Renders one column clause: name, type, IDENTITY(1,1) when the identity
flag is set, NOT NULL when non-nullable, DEFAULT when present and not
superseded by identity, and a trailing warning comment for flagged
conversions. -/
def renderColumnClause (col : ColumnDescriptor) : String :=
  let mapped := mapType SourceEngine.postgres col
  let identity := isIdentityColumn SourceEngine.postgres col
  col.name ++ " " ++ renderCanonicalType mapped.1
    ++ (if identity then " IDENTITY(1,1)" else "")
    ++ (if col.nullable then "" else " NOT NULL")
    ++ (match col.defaultValue with
        | some expr => if identity then "" else " DEFAULT " ++ expr
        | none => "")
    ++ (match mapped.2 with
        | some w => " -- " ++ w
        | none => "")

/-- Renders the body of a CREATE TABLE statement: one clause per column in
order, then an inline PRIMARY KEY clause when a primary key is present. -/
def renderTableBody (t : TableDescriptor) : String :=
  joinSep ", " (t.columns.map renderColumnClause
    ++ (match t.primaryKey with
        | some pk => ["PRIMARY KEY (" ++ joinSep ", " pk.columns ++ ")"]
        | none => []))

/-- Builds the ALTER TABLE statement of one foreign key of a table. -/
def fkStatement (t : TableDescriptor) (fk : ForeignKeyDescriptor) : DdlStmt :=
  DdlStmt.alterTableAddFk t.schemaName t.tableName
    ("fk_" ++ t.tableName ++ "_" ++ joinSep "_" fk.columns)
    fk.columns fk.referencedSchema fk.referencedTable fk.referencedColumns

/-- First pass of the synthesizer: the fixed header, the CREATE SCHEMA
statements in first-appearance order, then every CREATE TABLE statement in
the stable artifact order. -/
def tablePass (a : MappingArtifact) : List DdlStmt :=
  DdlStmt.header ddlHeaderComment
    :: ((dedupFirst [] a.selectedSchemas).map DdlStmt.createSchema
        ++ a.tables.map (fun t =>
             DdlStmt.createTable t.schemaName t.tableName (renderTableBody t)))

/-- Second pass of the synthesizer: one ALTER TABLE ... FOREIGN KEY per
foreign key, in table-then-declaration order. -/
def constraintPass (a : MappingArtifact) : List DdlStmt :=
  a.tables.flatMap (fun t => t.foreignKeys.map (fkStatement t))

/-- Modelled from the spec: `synthesize(artifact)` of
ddl-generator.service.ts — the ordered statement list, tables first, then
every foreign-key constraint. -/
def synthesize (a : MappingArtifact) : List DdlStmt :=
  tablePass a ++ constraintPass a

/-- Renders one statement as SQL text. -/
def renderStmt : DdlStmt → String
  | DdlStmt.header text => text
  | DdlStmt.createSchema schema =>
      "CREATE SCHEMA IF NOT EXISTS " ++ schema ++ ";"
  | DdlStmt.createTable schema table body =>
      "CREATE TABLE IF NOT EXISTS " ++ schema ++ "." ++ table
        ++ " (" ++ body ++ ");"
  | DdlStmt.alterTableAddFk schema table constraintName columns refSchema
      refTable refColumns =>
      "ALTER TABLE " ++ schema ++ "." ++ table ++ " ADD CONSTRAINT "
        ++ constraintName ++ " FOREIGN KEY (" ++ joinSep ", " columns
        ++ ") REFERENCES " ++ refSchema ++ "." ++ refTable ++ " ("
        ++ joinSep ", " refColumns ++ ");"

/-- Renders the whole DDL file: statements separated by blank lines. -/
def renderDDL (a : MappingArtifact) : String :=
  joinSep "\n\n" ((synthesize a).map renderStmt)

/-- Recognizes a CREATE TABLE statement. -/
def isCreateTable : DdlStmt → Bool
  | DdlStmt.createTable _ _ _ => true
  | _ => false

/-- Recognizes an ALTER TABLE ... FOREIGN KEY statement. -/
def isAlterFk : DdlStmt → Bool
  | DdlStmt.alterTableAddFk _ _ _ _ _ _ _ => true
  | _ => false

/-! ## Theorems: DDL synthesizer -/

/-- Helper: an element fetched beyond the first segment of an append lives
in the second segment. -/
theorem get_append_mem_right {α : Type} (L1 L2 : List α) (i : Nat)
    (h : L1.length ≤ i) (hi : i < (L1 ++ L2).length) :
    (L1 ++ L2).get ⟨i, hi⟩ ∈ L2 := by
  induction L1 generalizing i with
  | nil =>
    simp only [List.nil_append] at hi ⊢
    exact List.get_mem L2 i hi
  | cons a t ih =>
    cases i with
    | zero => simp at h
    | succ k =>
      simp only [List.cons_append, List.length_cons] at hi ⊢
      simpa using ih k (by simpa using h) (by omega)

/-- Helper: an element fetched within the first segment of an append lives
in the first segment. -/
theorem get_append_mem_left {α : Type} (L1 L2 : List α) (i : Nat)
    (h : i < L1.length) (hi : i < (L1 ++ L2).length) :
    (L1 ++ L2).get ⟨i, hi⟩ ∈ L1 := by
  induction L1 generalizing i with
  | nil => simp at h
  | cons a t ih =>
    cases i with
    | zero => simp
    | succ k =>
      simp only [List.length_cons] at h
      simp only [List.cons_append, List.get_cons_succ, List.mem_cons]
      right
      exact ih k (by omega)
        (by simp only [List.cons_append, List.length_cons] at hi; omega)

/-- Helper: no statement of the first synthesizer pass is a foreign-key
ALTER TABLE statement. -/
theorem tablePass_no_fk (a : MappingArtifact) :
    ∀ s ∈ tablePass a, isAlterFk s = false := by
  intro s hs
  simp only [tablePass, List.mem_cons, List.mem_append, List.mem_map] at hs
  rcases hs with h | ⟨⟨x, _, hx⟩ | ⟨t, _, ht⟩⟩
  · subst h
    rfl
  · subst hx
    rfl
  · subst ht
    rfl

/-- Helper: every statement of the second synthesizer pass is a
foreign-key ALTER TABLE statement, and none is a CREATE TABLE. -/
theorem constraintPass_all_fk (a : MappingArtifact) :
    ∀ s ∈ constraintPass a, isAlterFk s = true ∧ isCreateTable s = false := by
  intro s hs
  simp only [constraintPass, List.mem_flatMap, List.mem_map] at hs
  obtain ⟨t, _, fk, _, hfk⟩ := hs
  subst hfk
  exact ⟨rfl, rfl⟩

/-- C3: in the statement list returned by synthesize, every CREATE TABLE
statement appears strictly before every ALTER TABLE ... ADD CONSTRAINT
... FOREIGN KEY statement, for every Mapping Artifact and in particular
regardless of where a foreign key is declared. -/
theorem synthesize_creates_before_fks (a : MappingArtifact) (i j : Nat)
    (hi : i < (synthesize a).length) (hj : j < (synthesize a).length)
    (hct : isCreateTable ((synthesize a).get ⟨i, hi⟩) = true)
    (hfk : isAlterFk ((synthesize a).get ⟨j, hj⟩) = true) : i < j := by
  have hlt : i < (tablePass a).length := by
    by_contra hge
    have hmem : (synthesize a).get ⟨i, hi⟩ ∈ constraintPass a :=
      get_append_mem_right (tablePass a) (constraintPass a) i (by omega) hi
    have := (constraintPass_all_fk a _ hmem).2
    rw [hct] at this
    exact absurd this (by decide)
  have hge : (tablePass a).length ≤ j := by
    by_contra hlt2
    have hmem : (synthesize a).get ⟨j, hj⟩ ∈ tablePass a :=
      get_append_mem_left (tablePass a) (constraintPass a) j (by omega) hj
    have := tablePass_no_fk a _ hmem
    rw [hfk] at this
    exact absurd this (by decide)
  omega

/-- Concrete artifact for the C3 and C7 witnesses: one schema s1 with
tables t1 and t2 and a foreign key from t1 to t2, declared on t1 — the
earlier table. -/
def fkWitnessArtifact : MappingArtifact :=
  { version := MAPPING_FILE_VERSION
    name := "demo"
    createdAt := "2026-02-17T12:00:00.000Z"
    connection :=
      { host := "localhost", port := 5432, database := "db",
        user := "postgres",
        password := encrypt "pw" (List.replicate 32 0) [1], ssl := false }
    selectedSchemas := ["s1"]
    tables :=
      [{ schemaName := "s1", tableName := "t1",
         columns := [{ name := "id", nativeType := "int4",
                       precision := none, scale := none, maxLength := none,
                       nullable := false, defaultValue := none,
                       ordinal := 1 },
                     { name := "t2_id", nativeType := "int4",
                       precision := none, scale := none, maxLength := none,
                       nullable := true, defaultValue := none,
                       ordinal := 2 }],
         primaryKey := some { columns := ["id"] },
         foreignKeys := [{ columns := ["t2_id"], referencedSchema := "s1",
                           referencedTable := "t2",
                           referencedColumns := ["id"] }] },
       { schemaName := "s1", tableName := "t2",
         columns := [{ name := "id", nativeType := "int4",
                       precision := none, scale := none, maxLength := none,
                       nullable := false, defaultValue := none,
                       ordinal := 1 }],
         primaryKey := some { columns := ["id"] },
         foreignKeys := [] }]
    exportFormat := "parquet"
    outputDir := "./export" }

/-- Witness for C3: on the concrete artifact both CREATE TABLE statements
(indices 2 and 3) precede the ALTER TABLE foreign-key statement
(index 4), even though the foreign key is declared on the first table. -/
theorem synthesize_creates_before_fks_witness :
    (2 : Nat) < 4 ∧ (3 : Nat) < 4 :=
  ⟨synthesize_creates_before_fks fkWitnessArtifact 2 4 (by decide) (by decide)
      (by decide) (by decide),
   synthesize_creates_before_fks fkWitnessArtifact 3 4 (by decide) (by decide)
      (by decide) (by decide)⟩

/-- C7: synthesis is deterministic — on byte-for-byte identical artifacts
it produces byte-for-byte identical DDL text, the same statement list in
the same order with the same rendering.  In this embedding synthesize and
renderDDL are functions of the artifact alone (no clock, no randomness,
no ambient state), so two runs on equal artifacts agree. -/
theorem renderDDL_deterministic (a1 a2 : MappingArtifact) (h : a1 = a2) :
    renderDDL a1 = renderDDL a2 ∧ synthesize a1 = synthesize a2 := by
  subst h
  exact ⟨rfl, rfl⟩

/-- Witness for C7: two runs on the concrete artifact agree. -/
theorem renderDDL_deterministic_witness :
    renderDDL fkWitnessArtifact = renderDDL fkWitnessArtifact :=
  (renderDDL_deterministic fkWitnessArtifact fkWitnessArtifact rfl).1

/-! ## Configuration service (src/unnamed/part_000, config.service.ts)

The file-system effects the service performs (dirExists, fileExists,
readTextFile) are embedded as an explicit environment of pure functions on
paths; file contents are character lists so that trimming can be reasoned
about character by character.
-/

/-- File-system environment of the configuration service. -/
structure FileSystem : Type where
  dirExists : String → Bool
  fileExists : String → Bool
  readTextFile : String → List Char

/-- Joins two path segments (node path.join, modelled as separator
concatenation). -/
def pathJoin (a b : String) : String := a ++ "/" ++ b

/-- Embeds getLocalConfigDir: the config directory under the current
working directory. -/
def getLocalConfigDir (cwd : String) : String := pathJoin cwd CONFIG_DIR_NAME

/-- Embeds getGlobalConfigDir: the config directory under the home
directory. -/
def getGlobalConfigDir (home : String) : String := pathJoin home CONFIG_DIR_NAME

/-- Embeds the ConfigPaths interface of src/src/types/config.ts. -/
structure ConfigPaths : Type where
  configDir : String
  mappingsDir : String
  connectionsDir : String
  logsDir : String
  keyFile : String
  awsCredentialsFile : String
deriving DecidableEq

/-- Embeds buildPaths of config.service.ts. -/
def buildPaths (configDir : String) : ConfigPaths :=
  { configDir := configDir
    mappingsDir := pathJoin configDir MAPPINGS_DIR_NAME
    connectionsDir := pathJoin configDir CONNECTIONS_DIR_NAME
    logsDir := pathJoin configDir LOGS_DIR_NAME
    keyFile := pathJoin configDir KEY_FILE_NAME
    awsCredentialsFile := pathJoin configDir AWS_CREDENTIALS_FILE_NAME }

/-- Embeds resolveConfigPaths of config.service.ts: the local config
directory wins when it exists and holds a key file; otherwise the global
config directory is tried the same way; otherwise ConfigNotFoundError.
The two nested source conditionals with fall-through are collapsed into
one conjunction per location, which is equivalent. -/
def resolveConfigPaths (fs : FileSystem) (cwd home : String) :
    Except ServiceError ConfigPaths :=
  if fs.dirExists (getLocalConfigDir cwd)
      && fs.fileExists (buildPaths (getLocalConfigDir cwd)).keyFile then
    Except.ok (buildPaths (getLocalConfigDir cwd))
  else if fs.dirExists (getGlobalConfigDir home)
      && fs.fileExists (buildPaths (getGlobalConfigDir home)).keyFile then
    Except.ok (buildPaths (getGlobalConfigDir home))
  else
    Except.error ServiceError.configNotFound

/-- Embeds isInitialized of config.service.ts (no-location variant): true
exactly when resolveConfigPaths succeeds. -/
def isInitialized (fs : FileSystem) (cwd home : String) : Bool :=
  match resolveConfigPaths fs cwd home with
  | Except.ok _ => true
  | Except.error _ => false

/-- Whitespace recognizer of the trim operation (space, newline, tab,
carriage return). -/
def isWhitespaceChar (c : Char) : Bool :=
  c = ' ' || c = '\n' || c = '\t' || c = '\x09' || c = '\x0d'

/-- Embeds String.prototype.trim applied to the key-file text: leading and
trailing whitespace characters removed. -/
def trim (l : List Char) : List Char :=
  ((l.dropWhile isWhitespaceChar).reverse.dropWhile isWhitespaceChar).reverse

/-- Embeds readEncryptionKey of config.service.ts: resolve the config
paths, read the key file and trim surrounding whitespace. -/
def readEncryptionKey (fs : FileSystem) (cwd home : String) :
    Except ServiceError (List Char) :=
  match resolveConfigPaths fs cwd home with
  | Except.ok paths => Except.ok (trim (fs.readTextFile paths.keyFile))
  | Except.error e => Except.error e

/-! ## Theorems: configuration service -/

/-- C8: resolveConfigPaths (and hence readEncryptionKey and the initialized
check every encrypt/decrypt operation depends on) fails with
ConfigNotFoundError exactly when neither the local nor the global config
directory contains a key file; the key-file presence is the sole sentinel
(a directory that exists without a key file counts as not initialized).
The two hypotheses state file-system coherence: a key file can only exist
inside an existing config directory. -/
theorem resolveConfigPaths_notFound_iff (fs : FileSystem) (cwd home : String)
    (hcohL : fs.fileExists (buildPaths (getLocalConfigDir cwd)).keyFile = true →
        fs.dirExists (getLocalConfigDir cwd) = true)
    (hcohG : fs.fileExists (buildPaths (getGlobalConfigDir home)).keyFile = true →
        fs.dirExists (getGlobalConfigDir home) = true) :
    (resolveConfigPaths fs cwd home = Except.error ServiceError.configNotFound
        ↔ fs.fileExists (buildPaths (getLocalConfigDir cwd)).keyFile = false
            ∧ fs.fileExists (buildPaths (getGlobalConfigDir home)).keyFile = false)
      ∧ (readEncryptionKey fs cwd home = Except.error ServiceError.configNotFound
          ↔ fs.fileExists (buildPaths (getLocalConfigDir cwd)).keyFile = false
              ∧ fs.fileExists (buildPaths (getGlobalConfigDir home)).keyFile = false)
      ∧ (isInitialized fs cwd home = false
          ↔ fs.fileExists (buildPaths (getLocalConfigDir cwd)).keyFile = false
              ∧ fs.fileExists (buildPaths (getGlobalConfigDir home)).keyFile = false) := by
  have hmain :
      resolveConfigPaths fs cwd home = Except.error ServiceError.configNotFound
        ↔ fs.fileExists (buildPaths (getLocalConfigDir cwd)).keyFile = false
            ∧ fs.fileExists (buildPaths (getGlobalConfigDir home)).keyFile = false := by
    unfold resolveConfigPaths
    cases hfl : fs.fileExists (buildPaths (getLocalConfigDir cwd)).keyFile with
    | true =>
      simp [hcohL hfl, hfl]
    | false =>
      cases hfg : fs.fileExists (buildPaths (getGlobalConfigDir home)).keyFile with
      | true =>
        simp [hcohG hfg, hfl, hfg]
      | false =>
        cases hdl : fs.dirExists (getLocalConfigDir cwd) <;>
          cases hdg : fs.dirExists (getGlobalConfigDir home) <;>
            simp [hfl, hfg, hdl, hdg]
  have herr : ∀ e, resolveConfigPaths fs cwd home = Except.error e →
      e = ServiceError.configNotFound := by
    intro e he
    unfold resolveConfigPaths at he
    split at he
    · exact absurd he (by simp)
    · split at he
      · exact absurd he (by simp)
      · injection he with h
        exact h.symm
  refine ⟨hmain, ?_, ?_⟩
  · unfold readEncryptionKey
    cases hres : resolveConfigPaths fs cwd home with
    | ok paths =>
      rw [hres] at hmain
      simp only [reduceCtorEq, false_iff] at hmain
      exact iff_of_false (by simp) hmain
    | error e =>
      have := herr e hres
      subst this
      rw [hres] at hmain
      simpa using hmain
  · unfold isInitialized
    cases hres : resolveConfigPaths fs cwd home with
    | ok paths =>
      rw [hres] at hmain
      simp only [reduceCtorEq, false_iff] at hmain
      exact iff_of_false (by simp) hmain
    | error e =>
      have := herr e hres
      subst this
      rw [hres] at hmain
      simp only [true_iff] at hmain
      exact iff_of_true rfl hmain

/-- File system for the C8 witness: the local config directory exists but
holds no key file, and there is no global config directory at all. -/
def noKeyFs : FileSystem :=
  { dirExists := fun p => p = getLocalConfigDir "/work"
    fileExists := fun _ => false
    readTextFile := fun _ => [] }

/-- Witness for C8: a local config directory without a key file and no
global directory resolve to ConfigNotFoundError. -/
theorem resolveConfigPaths_notFound_iff_witness :
    resolveConfigPaths noKeyFs "/work" "/home/u"
      = Except.error ServiceError.configNotFound :=
  (resolveConfigPaths_notFound_iff noKeyFs "/work" "/home/u"
      (by intro h; exact absurd h (by decide))
      (by intro h; exact absurd h (by decide))).1.2 ⟨by decide, by decide⟩

/-- Helper: dropWhile over an all-satisfying left segment skips it. -/
theorem dropWhile_append_all {α : Type} (p : α → Bool) (w l : List α)
    (hw : ∀ c ∈ w, p c = true) :
    (w ++ l).dropWhile p = l.dropWhile p := by
  induction w with
  | nil => simp
  | cons a t ih =>
    have ha : p a = true := hw a (by simp)
    simp only [List.cons_append, List.dropWhile_cons, ha, if_true]
    exact ih (fun c hc => hw c (by simp [hc]))

/-- Helper: dropWhile empties an all-satisfying list. -/
theorem dropWhile_all_nil {α : Type} (p : α → Bool) (w : List α)
    (hw : ∀ c ∈ w, p c = true) : w.dropWhile p = [] := by
  have := dropWhile_append_all p w [] hw
  simpa using this

/-- Helper: trim is unchanged by surrounding whitespace. -/
theorem trim_surround (ws1 ws2 content : List Char)
    (h1 : ∀ c ∈ ws1, isWhitespaceChar c = true)
    (h2 : ∀ c ∈ ws2, isWhitespaceChar c = true) :
    trim (ws1 ++ content ++ ws2) = trim content := by
  unfold trim
  rw [List.append_assoc, dropWhile_append_all isWhitespaceChar ws1 _ h1]
  rw [List.dropWhile_append]
  cases hc : (content.dropWhile isWhitespaceChar).isEmpty with
  | true =>
    have hnil : content.dropWhile isWhitespaceChar = [] :=
      List.isEmpty_iff.mp hc
    rw [hnil]
    simp [dropWhile_all_nil isWhitespaceChar ws2 h2]
  | false =>
    rw [if_neg (by simp [hc])]
    rw [List.reverse_append,
      dropWhile_append_all isWhitespaceChar ws2.reverse _
        (fun c hc2 => h2 c (List.mem_reverse.mp hc2))]

/-- C10: readEncryptionKey returns the key-file text with leading and
trailing whitespace trimmed, and trimming is invariant under surrounding
whitespace, so a trailing newline or surrounding spaces in the key file
never change the key used for encryption and decryption. -/
theorem readEncryptionKey_trims (fs : FileSystem) (cwd home : String)
    (paths : ConfigPaths)
    (hres : resolveConfigPaths fs cwd home = Except.ok paths) :
    readEncryptionKey fs cwd home
        = Except.ok (trim (fs.readTextFile paths.keyFile))
      ∧ ∀ ws1 ws2 content : List Char,
          (∀ c ∈ ws1, isWhitespaceChar c = true) →
          (∀ c ∈ ws2, isWhitespaceChar c = true) →
          trim (ws1 ++ content ++ ws2) = trim content := by
  constructor
  · unfold readEncryptionKey
    rw [hres]
  · intro ws1 ws2 content h1 h2
    exact trim_surround ws1 ws2 content h1 h2

/-- File system for the C10 witness: an initialized local config whose key
file content carries a trailing newline. -/
def keyFs : FileSystem :=
  { dirExists := fun p => p = getLocalConfigDir "/work"
    fileExists := fun p => p = (buildPaths (getLocalConfigDir "/work")).keyFile
    readTextFile := fun p =>
      if p = (buildPaths (getLocalConfigDir "/work")).keyFile
      then "a1b2\n".toList else [] }

/-- Witness for C10: on the concrete file system the key is read trimmed,
and a concrete surrounding-whitespace instance collapses. -/
theorem readEncryptionKey_trims_witness :
    readEncryptionKey keyFs "/work" "/home/u"
        = Except.ok (trim (keyFs.readTextFile
            (buildPaths (getLocalConfigDir "/work")).keyFile))
      ∧ trim (" ".toList ++ "a1b2".toList ++ "\n".toList) = trim "a1b2".toList := by
  have h := readEncryptionKey_trims keyFs "/work" "/home/u"
    (buildPaths (getLocalConfigDir "/work")) (by rfl)
  exact ⟨h.1, h.2 " ".toList "\n".toList "a1b2".toList (by decide) (by decide)⟩

/-! ## S3 key builder (src/unnamed/part_001, aws.service.ts)

The prefix and file name are embedded as character lists;
String.prototype.endsWith with a one-character argument is the last
character test, and slice(0, -1) drops the last character.
-/

/-- Tests whether a character list ends with the given character. -/
def endsWithChar (l : List Char) (c : Char) : Bool :=
  l.getLast? = some c

/-- Embeds buildS3Key of aws.service.ts: an empty prefix yields the file
name alone; otherwise one trailing slash, if present, is removed from the
prefix, and prefix and file name are joined with a single slash. -/
def buildS3Key (pfx fileName : List Char) : List Char :=
  if pfx = [] then fileName
  else
    let cleanPrefix := if endsWithChar pfx '/' then pfx.dropLast else pfx
    cleanPrefix ++ '/' :: fileName

/-! ## Theorems: S3 key builder -/

/-- Counterexample to C9 as stated: the prefix consisting of exactly one
slash ends in one slash, yet it does not yield the same S3 key as the same
prefix with the slash removed, which is the empty prefix. -/
theorem buildS3Key_slash_prefix_counterexample :
    endsWithChar ['/'] '/' = true
      ∧ buildS3Key ['/'] ['f'] = ['/', 'f']
      ∧ buildS3Key [] ['f'] = ['f']
      ∧ buildS3Key ['/'] ['f'] ≠ buildS3Key [] ['f'] := by
  refine ⟨by decide, by decide, by decide, by decide⟩

/-- C9 (amended): buildS3Key with an empty prefix returns the file name
unchanged; with a non-empty prefix it returns the prefix with at most one
trailing slash removed, a single slash, then the file name; and a prefix
ending in one slash yields the same key as the same prefix without it,
provided the slash-stripped prefix is itself non-empty. -/
theorem buildS3Key_spec (pfx q fileName : List Char) (hne : pfx ≠ []) :
    buildS3Key [] fileName = fileName
      ∧ (endsWithChar pfx '/' = true →
          buildS3Key pfx fileName = pfx.dropLast ++ '/' :: fileName)
      ∧ (endsWithChar pfx '/' = false →
          buildS3Key pfx fileName = pfx ++ '/' :: fileName)
      ∧ (q ≠ [] → endsWithChar q '/' = false →
          buildS3Key (q ++ ['/']) fileName = buildS3Key q fileName) := by
  refine ⟨rfl, ?_, ?_, ?_⟩
  · intro h
    simp [buildS3Key, hne, h]
  · intro h
    simp [buildS3Key, hne, h]
  · intro hq hnoslash
    have hconcat : q ++ ['/'] ≠ [] := by simp
    have hends : endsWithChar (q ++ ['/']) '/' = true := by
      simp [endsWithChar]
    simp [buildS3Key, hconcat, hq, hends, hnoslash]

/-- Witness for C9 at the concrete prefix "a/" and file name "f": removing
the trailing slash does not change the key. -/
theorem buildS3Key_spec_witness :
    buildS3Key (['a'] ++ ['/']) ['f'] = buildS3Key ['a'] ['f'] :=
  (buildS3Key_spec ['a', '/'] ['a'] ['f'] (by decide)).2.2.2 (by decide) (by decide)

end Db2Snow
